import Mathlib

/-!
Shallow embedding of the Vulkan tutorial renderer (GfxAPIVulkan) and proofs
about its swapchain negotiation, device selection, memory-type selection,
render-pass creation, resize handling, frame loop and rebuild protocol.
Each definition mirrors the corresponding C++ routine in
GfxAPIVulkan/GfxAPIVulkan.cpp.
-/

namespace GfxAPIVulkan

/-- Present modes that SelectSwapChainPresentMode distinguishes, plus the
relaxed FIFO mode standing for any other supported mode. -/
inductive VkPresentMode where
  | immediate
  | mailbox
  | fifo
  | fifoRelaxed
deriving DecidableEq, Repr

/-- The loop body of GfxAPIVulkan::SelectSwapChainPresentMode: the current
choice starts at FIFO; a MAILBOX entry is taken immediately (early return),
an IMMEDIATE entry replaces the current choice but the scan continues. -/
def selectPresentModeLoop : List VkPresentMode → VkPresentMode → VkPresentMode
  | [], spmPresentMode => spmPresentMode
  | pmPresentMode :: rest, spmPresentMode =>
    if pmPresentMode = VkPresentMode.mailbox then VkPresentMode.mailbox
    else if pmPresentMode = VkPresentMode.immediate then
      selectPresentModeLoop rest VkPresentMode.immediate
    else selectPresentModeLoop rest spmPresentMode

/-- GfxAPIVulkan::SelectSwapChainPresentMode: default to FIFO, then scan the
supported present modes. -/
def SelectSwapChainPresentMode (aPresentModes : List VkPresentMode) : VkPresentMode :=
  selectPresentModeLoop aPresentModes VkPresentMode.fifo

/-- A 2D extent, mirroring VkExtent2D. -/
structure VkExtent2D where
  width : Nat
  height : Nat
deriving DecidableEq, Repr

/-- The fields of VkSurfaceCapabilitiesKHR used by swapchain creation. -/
structure VkSurfaceCapabilities where
  minImageCount : Nat
  maxImageCount : Nat
  currentExtent : VkExtent2D
  minImageExtent : VkExtent2D
  maxImageExtent : VkExtent2D
deriving DecidableEq, Repr

/-- The image-count computation at the start of GfxAPIVulkan::CreateSwapChain:
one more than the minimum, clamped down to the maximum when the maximum is
nonzero and exceeded. -/
def swapChainImageCount (capsSurface : VkSurfaceCapabilities) : Nat :=
  let ctImages := capsSurface.minImageCount + 1
  if capsSurface.maxImageCount > 0 ∧ ctImages > capsSurface.maxImageCount then
    capsSurface.maxImageCount
  else ctImages

/-- The largest value of a 32 bit unsigned integer, used by the surface as the
sentinel extent value. -/
def uint32Max : Nat := 4294967295

/-- GfxAPIVulkan::SelectSwapChainExtent: when the current extent width equals
the uint32 sentinel the current extent is used unmodified; otherwise the
window dimensions are clamped componentwise into the supported range. -/
def SelectSwapChainExtent (capsSurface : VkSurfaceCapabilities)
    (windowWidth windowHeight : Nat) : VkExtent2D :=
  if capsSurface.currentExtent.width = uint32Max then capsSurface.currentExtent
  else
    { width := max capsSurface.minImageExtent.width
        (min capsSurface.maxImageExtent.width windowWidth),
      height := max capsSurface.minImageExtent.height
        (min capsSurface.maxImageExtent.height windowHeight) }

/-- GfxAPIVulkan::OnWindowResizedCallback: a zero width or height returns
without forwarding anything; otherwise the resize is forwarded to
OnWindowResized (the source passes the width argument for both dimensions). -/
def OnWindowResizedCallback (width height : Nat) : Option (Nat × Nat) :=
  if width = 0 ∨ height = 0 then none
  else some (width, width)

theorem selectPresentModeLoop_of_not_mem (ms : List VkPresentMode)
    (cur : VkPresentMode) (hmb : VkPresentMode.mailbox ∉ ms)
    (him : VkPresentMode.immediate ∉ ms) : selectPresentModeLoop ms cur = cur := by
  induction ms with
  | nil => rfl
  | cons m rest ih =>
    simp only [List.mem_cons, not_or] at hmb him
    simp only [selectPresentModeLoop]
    rw [if_neg (by exact fun h => hmb.1 h.symm), if_neg (by exact fun h => him.1 h.symm)]
    exact ih hmb.2 him.2

theorem selectPresentModeLoop_of_mailbox (ms : List VkPresentMode)
    (cur : VkPresentMode) (hmb : VkPresentMode.mailbox ∈ ms) :
    selectPresentModeLoop ms cur = VkPresentMode.mailbox := by
  induction ms generalizing cur with
  | nil => cases hmb
  | cons m rest ih =>
    simp only [selectPresentModeLoop]
    by_cases h1 : m = VkPresentMode.mailbox
    · rw [if_pos h1]
    · rw [if_neg h1]
      have hrest : VkPresentMode.mailbox ∈ rest := by
        rcases List.mem_cons.mp hmb with h | h
        · exact absurd h.symm h1
        · exact h
      by_cases h2 : m = VkPresentMode.immediate
      · rw [if_pos h2]; exact ih _ hrest
      · rw [if_neg h2]; exact ih _ hrest

theorem selectPresentModeLoop_of_immediate (ms : List VkPresentMode)
    (cur : VkPresentMode) (him : VkPresentMode.immediate ∈ ms)
    (hmb : VkPresentMode.mailbox ∉ ms) :
    selectPresentModeLoop ms cur = VkPresentMode.immediate := by
  induction ms generalizing cur with
  | nil => cases him
  | cons m rest ih =>
    simp only [List.mem_cons, not_or] at hmb
    simp only [selectPresentModeLoop]
    rw [if_neg (by exact fun h => hmb.1 h.symm)]
    by_cases h2 : m = VkPresentMode.immediate
    · rw [if_pos h2]
      by_cases hrest : VkPresentMode.immediate ∈ rest
      · exact ih _ hrest hmb.2
      · exact selectPresentModeLoop_of_not_mem rest _ hmb.2 hrest
    · rw [if_neg h2]
      have hrest : VkPresentMode.immediate ∈ rest := by
        rcases List.mem_cons.mp him with h | h
        · exact absurd h.symm h2
        · exact h
      exact ih _ hrest hmb.2

/-- C5: present-mode selection returns FIFO when neither MAILBOX nor IMMEDIATE
occurs in the supported list, returns MAILBOX whenever MAILBOX occurs anywhere
in the list (even after an earlier IMMEDIATE entry), and returns IMMEDIATE
when IMMEDIATE occurs but MAILBOX does not. -/
theorem selectSwapChainPresentMode_spec (aPresentModes : List VkPresentMode) :
    ((VkPresentMode.mailbox ∉ aPresentModes ∧ VkPresentMode.immediate ∉ aPresentModes) →
      SelectSwapChainPresentMode aPresentModes = VkPresentMode.fifo) ∧
    (VkPresentMode.mailbox ∈ aPresentModes →
      SelectSwapChainPresentMode aPresentModes = VkPresentMode.mailbox) ∧
    ((VkPresentMode.immediate ∈ aPresentModes ∧ VkPresentMode.mailbox ∉ aPresentModes) →
      SelectSwapChainPresentMode aPresentModes = VkPresentMode.immediate) := by
  refine ⟨fun h => ?_, fun h => ?_, fun h => ?_⟩
  · exact selectPresentModeLoop_of_not_mem _ _ h.1 h.2
  · exact selectPresentModeLoop_of_mailbox _ _ h
  · exact selectPresentModeLoop_of_immediate _ _ h.1 h.2

/-- C5 witness: concrete runs of the three branches, with MAILBOX placed after
an IMMEDIATE entry in the second list. -/
theorem selectSwapChainPresentMode_spec_witness :
    SelectSwapChainPresentMode [VkPresentMode.fifo] = VkPresentMode.fifo ∧
    SelectSwapChainPresentMode
      [VkPresentMode.immediate, VkPresentMode.fifo, VkPresentMode.mailbox] =
      VkPresentMode.mailbox ∧
    SelectSwapChainPresentMode [VkPresentMode.fifo, VkPresentMode.immediate] =
      VkPresentMode.immediate :=
  ⟨(selectSwapChainPresentMode_spec [VkPresentMode.fifo]).1 (by decide),
   (selectSwapChainPresentMode_spec
      [VkPresentMode.immediate, VkPresentMode.fifo, VkPresentMode.mailbox]).2.1 (by decide),
   (selectSwapChainPresentMode_spec
      [VkPresentMode.fifo, VkPresentMode.immediate]).2.2 (by decide)⟩

/-- A surface capability report with the maximum image count equal to the
minimum, as Vulkan allows (the maximum must only be at least the minimum
when it is nonzero). -/
def capsMinEqMax : VkSurfaceCapabilities :=
  { minImageCount := 2, maxImageCount := 2,
    currentExtent := ⟨0, 0⟩, minImageExtent := ⟨0, 0⟩, maxImageExtent := ⟨0, 0⟩ }

/-- C7 counterexample: with minImageCount = 2 and maxImageCount = 2 the code
requests 2 images, so the claimed bound minImageCount + 1 <= count fails. -/
theorem swapChainImageCount_claim_counterexample :
    capsMinEqMax.maxImageCount > 0 ∧
    swapChainImageCount capsMinEqMax = 2 ∧
    ¬ (capsMinEqMax.minImageCount + 1 ≤ swapChainImageCount capsMinEqMax ∧
       swapChainImageCount capsMinEqMax ≤ capsMinEqMax.maxImageCount) := by
  decide

/-- C7 (amended): the requested image count equals minImageCount + 1 when the
reported maxImageCount is zero, and otherwise equals minImageCount + 1 clamped
down to maxImageCount. -/
theorem swapChainImageCount_spec (capsSurface : VkSurfaceCapabilities) :
    (capsSurface.maxImageCount = 0 →
      swapChainImageCount capsSurface = capsSurface.minImageCount + 1) ∧
    (0 < capsSurface.maxImageCount →
      swapChainImageCount capsSurface =
        min (capsSurface.minImageCount + 1) capsSurface.maxImageCount) := by
  unfold swapChainImageCount
  constructor
  · intro h
    rw [if_neg]
    intro hcon
    omega
  · intro h
    by_cases hgt : capsSurface.minImageCount + 1 > capsSurface.maxImageCount
    · rw [if_pos ⟨h, hgt⟩]
      omega
    · rw [if_neg (by intro hcon; exact hgt hcon.2)]
      omega

/-- C7 witness: both branches of the amended statement at concrete capability
reports (unbounded maximum, and maximum below the desired count). -/
theorem swapChainImageCount_spec_witness :
    swapChainImageCount
      { minImageCount := 2, maxImageCount := 0, currentExtent := ⟨0, 0⟩,
        minImageExtent := ⟨0, 0⟩, maxImageExtent := ⟨0, 0⟩ } = 3 ∧
    swapChainImageCount capsMinEqMax = min 3 2 :=
  ⟨(swapChainImageCount_spec _).1 rfl, (swapChainImageCount_spec capsMinEqMax).2 (by decide)⟩

/-- C8: for positive window dimensions, when the surface does not report the
sentinel extent the negotiated extent is the window size componentwise clamped
into the supported range (and lies in that range whenever the range is
nonempty); when the sentinel is reported the current extent is returned
unmodified. -/
theorem selectSwapChainExtent_spec (capsSurface : VkSurfaceCapabilities)
    (windowWidth windowHeight : Nat) (hw : 0 < windowWidth) (hh : 0 < windowHeight) :
    (capsSurface.currentExtent.width = uint32Max →
      SelectSwapChainExtent capsSurface windowWidth windowHeight =
        capsSurface.currentExtent) ∧
    (capsSurface.currentExtent.width ≠ uint32Max →
      SelectSwapChainExtent capsSurface windowWidth windowHeight =
        ⟨max capsSurface.minImageExtent.width
           (min capsSurface.maxImageExtent.width windowWidth),
         max capsSurface.minImageExtent.height
           (min capsSurface.maxImageExtent.height windowHeight)⟩ ∧
      (capsSurface.minImageExtent.width ≤ capsSurface.maxImageExtent.width →
        capsSurface.minImageExtent.width ≤
          (SelectSwapChainExtent capsSurface windowWidth windowHeight).width ∧
        (SelectSwapChainExtent capsSurface windowWidth windowHeight).width ≤
          capsSurface.maxImageExtent.width) ∧
      (capsSurface.minImageExtent.height ≤ capsSurface.maxImageExtent.height →
        capsSurface.minImageExtent.height ≤
          (SelectSwapChainExtent capsSurface windowWidth windowHeight).height ∧
        (SelectSwapChainExtent capsSurface windowWidth windowHeight).height ≤
          capsSurface.maxImageExtent.height)) := by
  unfold SelectSwapChainExtent
  constructor
  · intro h
    rw [if_pos h]
  · intro h
    rw [if_neg h]
    refine ⟨rfl, fun hr => ⟨?_, ?_⟩, fun hr => ⟨?_, ?_⟩⟩ <;> simp <;> omega

/-- C8 witness: a non-sentinel capability report clamping a window of 300 by 50
into widths 100 to 200 and heights 100 to 150, and a sentinel report returned
unmodified. -/
theorem selectSwapChainExtent_spec_witness :
    SelectSwapChainExtent
      { minImageCount := 1, maxImageCount := 0, currentExtent := ⟨640, 480⟩,
        minImageExtent := ⟨100, 100⟩, maxImageExtent := ⟨200, 150⟩ } 300 50 =
      ⟨max 100 (min 200 300), max 100 (min 150 50)⟩ ∧
    SelectSwapChainExtent
      { minImageCount := 1, maxImageCount := 0, currentExtent := ⟨uint32Max, 480⟩,
        minImageExtent := ⟨100, 100⟩, maxImageExtent := ⟨200, 150⟩ } 300 50 =
      ⟨uint32Max, 480⟩ :=
  ⟨((selectSwapChainExtent_spec _ 300 50 (by decide) (by decide)).2 (by decide)).1,
   (selectSwapChainExtent_spec _ 300 50 (by decide) (by decide)).1 rfl⟩

/-- One entry of the memoryTypes array of VkPhysicalDeviceMemoryProperties. -/
structure VkMemoryType where
  propertyFlags : Nat
deriving DecidableEq, Repr

instance : Inhabited VkMemoryType := ⟨⟨0⟩⟩

/-- The loop of GfxAPIVulkan::FindMemoryType, recursing over the memory types
with the running index iMemoryType; falling off the end models the thrown
runtime error. -/
def findMemoryTypeLoop (flgTypeFilter flgProperties : Nat) :
    Nat → List VkMemoryType → Except String Nat
  | _, [] => Except.error "Unable to find an appropriate memory type"
  | iMemoryType, mt :: rest =>
    if flgTypeFilter &&& (1 <<< iMemoryType) ≠ 0 ∧
        mt.propertyFlags &&& flgProperties = flgProperties then
      Except.ok iMemoryType
    else findMemoryTypeLoop flgTypeFilter flgProperties (iMemoryType + 1) rest

/-- GfxAPIVulkan::FindMemoryType: scan the memory types of the physical device
from index 0 for the first suitable one; throw when none is found. -/
def FindMemoryType (memoryTypes : List VkMemoryType) (flgTypeFilter flgProperties : Nat) :
    Except String Nat :=
  findMemoryTypeLoop flgTypeFilter flgProperties 0 memoryTypes

/-- Suitability of index i of the memory-type list for the given filter and
requested properties, as in the claim about FindMemoryType. -/
def suitableMemoryIndex (memoryTypes : List VkMemoryType)
    (flgTypeFilter flgProperties i : Nat) : Prop :=
  flgTypeFilter &&& (1 <<< i) ≠ 0 ∧
  (memoryTypes.getD i default).propertyFlags &&& flgProperties = flgProperties

instance (memoryTypes : List VkMemoryType) (flgTypeFilter flgProperties i : Nat) :
    Decidable (suitableMemoryIndex memoryTypes flgTypeFilter flgProperties i) := by
  unfold suitableMemoryIndex
  infer_instance

theorem findMemoryTypeLoop_ok (flgTypeFilter flgProperties : Nat) :
    ∀ (l : List VkMemoryType) (k r : Nat),
      findMemoryTypeLoop flgTypeFilter flgProperties k l = Except.ok r →
      k ≤ r ∧ r - k < l.length ∧
      (flgTypeFilter &&& (1 <<< r) ≠ 0 ∧
        (l.getD (r - k) default).propertyFlags &&& flgProperties = flgProperties) ∧
      ∀ j, k ≤ j → j < r →
        ¬ (flgTypeFilter &&& (1 <<< j) ≠ 0 ∧
           (l.getD (j - k) default).propertyFlags &&& flgProperties = flgProperties) := by
  intro l
  induction l with
  | nil => intro k r h; cases h
  | cons mt rest ih =>
    intro k r h
    unfold findMemoryTypeLoop at h
    by_cases hc : flgTypeFilter &&& (1 <<< k) ≠ 0 ∧
        mt.propertyFlags &&& flgProperties = flgProperties
    · rw [if_pos hc] at h
      cases h
      refine ⟨le_refl _, by simp, ?_, ?_⟩
      · simpa using hc
      · intro j hkj hjr
        omega
    · rw [if_neg hc] at h
      obtain ⟨hkr, hlen, hcond, hmin⟩ := ih (k + 1) r h
      have hk : k ≤ r := by omega
      have hrk : r - k = (r - (k + 1)) + 1 := by omega
      refine ⟨hk, by simp; omega, ?_, ?_⟩
      · rw [hrk, List.getD_cons_succ]
        exact hcond
      · intro j hkj hjr
        by_cases hjk : j = k
        · subst hjk
          simpa using hc
        · have hjk1 : k + 1 ≤ j := by omega
          have hjkk : j - k = (j - (k + 1)) + 1 := by omega
          rw [hjkk, List.getD_cons_succ]
          exact hmin j hjk1 hjr

theorem findMemoryTypeLoop_error (flgTypeFilter flgProperties : Nat) :
    ∀ (l : List VkMemoryType) (k : Nat),
      (∀ j, j < l.length →
        ¬ (flgTypeFilter &&& (1 <<< (k + j)) ≠ 0 ∧
           (l.getD j default).propertyFlags &&& flgProperties = flgProperties)) →
      findMemoryTypeLoop flgTypeFilter flgProperties k l =
        Except.error "Unable to find an appropriate memory type" := by
  intro l
  induction l with
  | nil => intro k _; rfl
  | cons mt rest ih =>
    intro k h
    unfold findMemoryTypeLoop
    rw [if_neg (by simpa using h 0 (by simp))]
    refine ih (k + 1) ?_
    intro j hj
    have := h (j + 1) (by simpa using Nat.succ_lt_succ hj)
    rw [List.getD_cons_succ] at this
    have harith : k + (j + 1) = (k + 1) + j := by omega
    rw [harith] at this
    exact this

/-- C6: FindMemoryType returns the smallest index i such that bit i is set in
the type filter and the property flags of memory type i contain all requested
properties; when no such index exists it raises the resource-allocation error
instead of returning an index. -/
theorem findMemoryType_spec (memoryTypes : List VkMemoryType)
    (flgTypeFilter flgProperties : Nat) :
    (∀ i, FindMemoryType memoryTypes flgTypeFilter flgProperties = Except.ok i →
      i < memoryTypes.length ∧
      suitableMemoryIndex memoryTypes flgTypeFilter flgProperties i ∧
      ∀ j, j < i → ¬ suitableMemoryIndex memoryTypes flgTypeFilter flgProperties j) ∧
    ((∀ j, j < memoryTypes.length →
        ¬ suitableMemoryIndex memoryTypes flgTypeFilter flgProperties j) →
      FindMemoryType memoryTypes flgTypeFilter flgProperties =
        Except.error "Unable to find an appropriate memory type") := by
  constructor
  · intro i h
    obtain ⟨-, hlen, hcond, hmin⟩ :=
      findMemoryTypeLoop_ok flgTypeFilter flgProperties memoryTypes 0 i h
    rw [Nat.sub_zero] at hlen hcond
    refine ⟨hlen, hcond, ?_⟩
    intro j hj hcon
    have := hmin j (Nat.zero_le _) hj
    rw [Nat.sub_zero] at this
    exact this hcon
  · intro h
    refine findMemoryTypeLoop_error flgTypeFilter flgProperties memoryTypes 0 ?_
    intro j hj
    rw [Nat.zero_add]
    exact h j hj

/-- C6 witness: with memory types of flags 0 and 3, filter 2 and requested
properties 1 the index 1 is returned (index 0 is filtered out); with filter 0
no index qualifies and the error is raised. -/
theorem findMemoryType_spec_witness :
    (1 < ([⟨0⟩, ⟨3⟩] : List VkMemoryType).length ∧
      suitableMemoryIndex [⟨0⟩, ⟨3⟩] 2 1 1 ∧
      ∀ j, j < 1 → ¬ suitableMemoryIndex [⟨0⟩, ⟨3⟩] 2 1 j) ∧
    FindMemoryType [⟨0⟩] 0 0 =
      Except.error "Unable to find an appropriate memory type" :=
  ⟨(findMemoryType_spec [⟨0⟩, ⟨3⟩] 2 1).1 1 rfl,
   (findMemoryType_spec [⟨0⟩] 0 0).2 (by decide)⟩

/-- C9: a resize notification with width 0 or height 0 performs no action: the
callback returns before forwarding anything to the manager, so no rebuild is
triggered and no swapchain creation is attempted. -/
theorem onWindowResizedCallback_zero_spec (width height : Nat)
    (hzero : width = 0 ∨ height = 0) :
    OnWindowResizedCallback width height = none := by
  unfold OnWindowResizedCallback
  rw [if_pos hzero]

/-- C9 witness: a notification of width 0 and height 7 forwards nothing. -/
theorem onWindowResizedCallback_zero_spec_witness :
    OnWindowResizedCallback 0 7 = none :=
  onWindowResizedCallback_zero_spec 0 7 (Or.inl rfl)

/-- The graphics queue capability bit of VkQueueFlagBits. -/
def VK_QUEUE_GRAPHICS_BIT : Nat := 1

/-- One queue family of a candidate physical device: its queue count and flag
mask, plus the presentation-support answer of
vkGetPhysicalDeviceSurfaceSupportKHR for the surface in use. -/
structure VkQueueFamilyProperties where
  queueCount : Nat
  queueFlags : Nat
  presentSupport : Bool
deriving DecidableEq, Repr

/-- The two queue family index members of GfxAPIVulkan, both initialized to -1
by the constructor. -/
structure QueueFamilyIndices where
  iGraphicsQueueFamily : Int
  iPresentationQueueFamily : Int
deriving DecidableEq, Repr

/-- One iteration of the loop in GfxAPIVulkan::FindQueueFamilies. The graphics
test reproduces the source condition, which combines the queue flags with the
graphics bit by bitwise or. -/
def findQueueFamiliesStep (s : QueueFamilyIndices) (iQueueFamily : Nat)
    (qfQueueFamily : VkQueueFamilyProperties) : QueueFamilyIndices :=
  let s :=
    if s.iGraphicsQueueFamily < 0 ∧ qfQueueFamily.queueCount > 0 ∧
        (qfQueueFamily.queueFlags ||| VK_QUEUE_GRAPHICS_BIT) ≠ 0 then
      { s with iGraphicsQueueFamily := (iQueueFamily : Int) }
    else s
  if s.iPresentationQueueFamily < 0 ∧ qfQueueFamily.queueCount > 0 ∧
      qfQueueFamily.presentSupport then
    { s with iPresentationQueueFamily := (iQueueFamily : Int) }
  else s

/-- GfxAPIVulkan::FindQueueFamilies: scan the queue families of the device in
index order, starting from the freshly constructed member state. -/
def FindQueueFamilies (aQueueFamilies : List VkQueueFamilyProperties) :
    QueueFamilyIndices :=
  aQueueFamilies.enum.foldl (fun s p => findQueueFamiliesStep s p.1 p.2) ⟨-1, -1⟩

/-- GfxAPIVulkan::IsQueueFamiliesSuitable: only the graphics family index is
checked. -/
def IsQueueFamiliesSuitable (s : QueueFamilyIndices) : Bool :=
  if s.iGraphicsQueueFamily < 0 then false
  else true

/-- A queue family with one queue that supports neither graphics submission nor
presentation. -/
def qfNoGraphics : VkQueueFamilyProperties :=
  { queueCount := 1, queueFlags := 0, presentSupport := false }

/-- C2: on a device whose only queue family has one queue and supports neither
graphics nor presentation, FindQueueFamilies still stores index 0 as the
graphics family, because the source tests the queue flags with a bitwise or
against the graphics bit, which never fails; the family does not have the
graphics bit set, so the stored family does not support graphics submission. -/
theorem findQueueFamilies_graphics_bug :
    (FindQueueFamilies [qfNoGraphics]).iGraphicsQueueFamily = 0 ∧
    qfNoGraphics.queueFlags &&& VK_QUEUE_GRAPHICS_BIT = 0 ∧
    (FindQueueFamilies [qfNoGraphics]).iPresentationQueueFamily = -1 := by
  decide

/-- A queue family with one queue that has the graphics bit set but does not
support presentation to the surface. -/
def qfGraphicsOnly : VkQueueFamilyProperties :=
  { queueCount := 1, queueFlags := VK_QUEUE_GRAPHICS_BIT, presentSupport := false }

/-- C3: on a device whose only queue family supports graphics but not
presentation, discovery leaves the presentation family unset, yet
IsQueueFamiliesSuitable reports the queue families as suitable: the check
inspects only the graphics index and never the presentation index. -/
theorem isQueueFamiliesSuitable_missing_present :
    (FindQueueFamilies [qfGraphicsOnly]).iPresentationQueueFamily = -1 ∧
    IsQueueFamiliesSuitable (FindQueueFamilies [qfGraphicsOnly]) = true := by
  decide

/-- A color attachment description with the fields set by
GfxAPIVulkan::CreateRenderPass (values of the Vulkan enumerations involved). -/
structure VkAttachmentDescription where
  format : Nat
  samples : Nat
  loadOp : Nat
  storeOp : Nat
  initialLayout : Nat
  finalLayout : Nat
deriving DecidableEq, Repr

/-- An attachment reference of a subpass. -/
structure VkAttachmentReference where
  attachment : Nat
  layout : Nat
deriving DecidableEq, Repr

/-- A subpass description with the fields set by the source. -/
structure VkSubpassDescription where
  pipelineBindPoint : Nat
  colorAttachmentCount : Nat
  pColorAttachments : List VkAttachmentReference
deriving DecidableEq, Repr

/-- A subpass dependency record. -/
structure VkSubpassDependency where
  srcSubpass : Nat
  dstSubpass : Nat
  srcStageMask : Nat
  srcAccessMask : Nat
  dstStageMask : Nat
  dstAccessMask : Nat
deriving DecidableEq, Repr

/-- The render pass creation record: each array is paired with the explicit
count that the API reads, exactly as the C structure carries a pointer plus a
count. -/
structure VkRenderPassCreateInfo where
  attachmentCount : Nat
  pAttachments : List VkAttachmentDescription
  subpassCount : Nat
  pSubpasses : List VkSubpassDescription
  dependencyCount : Nat
  pDependencies : List VkSubpassDependency
deriving DecidableEq, Repr

def VK_SAMPLE_COUNT_1_BIT : Nat := 1
def VK_ATTACHMENT_LOAD_OP_CLEAR : Nat := 1
def VK_ATTACHMENT_STORE_OP_STORE : Nat := 0
def VK_IMAGE_LAYOUT_UNDEFINED : Nat := 0
def VK_IMAGE_LAYOUT_PRESENT_SRC_KHR : Nat := 1000001002
def VK_IMAGE_LAYOUT_COLOR_ATTACHMENT_OPTIMAL : Nat := 2
def VK_PIPELINE_BIND_POINT_GRAPHICS : Nat := 0
def VK_SUBPASS_EXTERNAL : Nat := uint32Max
def VK_PIPELINE_STAGE_COLOR_ATTACHMENT_OUTPUT_BIT : Nat := 1024
def VK_ACCESS_COLOR_ATTACHMENT_READ_BIT : Nat := 128
def VK_ACCESS_COLOR_ATTACHMENT_WRITE_BIT : Nat := 256

/-- The creation record built by GfxAPIVulkan::CreateRenderPass for the given
swapchain format: one cleared and stored color attachment with presentable
final layout, one graphics subpass, a fully described external dependency at
the color attachment output stage, and a dependency count of zero. -/
def CreateRenderPassInfo (sfmtFormat : Nat) : VkRenderPassCreateInfo :=
  let descColorAttachment : VkAttachmentDescription :=
    { format := sfmtFormat,
      samples := VK_SAMPLE_COUNT_1_BIT,
      loadOp := VK_ATTACHMENT_LOAD_OP_CLEAR,
      storeOp := VK_ATTACHMENT_STORE_OP_STORE,
      initialLayout := VK_IMAGE_LAYOUT_UNDEFINED,
      finalLayout := VK_IMAGE_LAYOUT_PRESENT_SRC_KHR }
  let refAttachment : VkAttachmentReference :=
    { attachment := 0, layout := VK_IMAGE_LAYOUT_COLOR_ATTACHMENT_OPTIMAL }
  let descSubPass : VkSubpassDescription :=
    { pipelineBindPoint := VK_PIPELINE_BIND_POINT_GRAPHICS,
      colorAttachmentCount := 1,
      pColorAttachments := [refAttachment] }
  let infDependency : VkSubpassDependency :=
    { srcSubpass := VK_SUBPASS_EXTERNAL,
      dstSubpass := 0,
      srcStageMask := VK_PIPELINE_STAGE_COLOR_ATTACHMENT_OUTPUT_BIT,
      srcAccessMask := 0,
      dstStageMask := VK_PIPELINE_STAGE_COLOR_ATTACHMENT_OUTPUT_BIT,
      dstAccessMask := VK_ACCESS_COLOR_ATTACHMENT_READ_BIT |||
        VK_ACCESS_COLOR_ATTACHMENT_WRITE_BIT }
  { attachmentCount := 1,
    pAttachments := [descColorAttachment],
    subpassCount := 1,
    pSubpasses := [descSubPass],
    dependencyCount := 0,
    pDependencies := [infDependency] }

/-- The dependencies a render pass creation actually attaches: the API reads
dependencyCount entries from the dependency array. -/
def attachedDependencies (ciRenderPass : VkRenderPassCreateInfo) :
    List VkSubpassDependency :=
  ciRenderPass.pDependencies.take ciRenderPass.dependencyCount

/-- C4: for every swapchain format, the render pass creation record carries a
dependency count of zero, so no subpass dependency at all is attached, even
though the external color-attachment-output dependency record is fully built
and the dependency array points at it. -/
theorem createRenderPass_dependencyCount_zero (sfmtFormat : Nat) :
    (CreateRenderPassInfo sfmtFormat).dependencyCount = 0 ∧
    attachedDependencies (CreateRenderPassInfo sfmtFormat) = [] ∧
    (CreateRenderPassInfo sfmtFormat).pDependencies =
      [{ srcSubpass := VK_SUBPASS_EXTERNAL,
         dstSubpass := 0,
         srcStageMask := VK_PIPELINE_STAGE_COLOR_ATTACHMENT_OUTPUT_BIT,
         srcAccessMask := 0,
         dstStageMask := VK_PIPELINE_STAGE_COLOR_ATTACHMENT_OUTPUT_BIT,
         dstAccessMask := VK_ACCESS_COLOR_ATTACHMENT_READ_BIT |||
           VK_ACCESS_COLOR_ATTACHMENT_WRITE_BIT }] :=
  ⟨rfl, rfl, rfl⟩

/-- The result values distinguished by GfxAPIVulkan::Render, with one value
standing for any other (fatal) error. -/
inductive VkResult where
  | success
  | suboptimalKHR
  | errorOutOfDateKHR
  | errorDeviceLost
deriving DecidableEq, Repr

/-- The externally visible steps of GfxAPIVulkan::Render. -/
inductive RenderAction where
  | updateUniformBuffer
  | acquireNextImage
  | initializeSwapChain
  | queueSubmit
  | queuePresent
  | deviceWaitIdle
deriving DecidableEq, Repr

/-- GfxAPIVulkan::Render as a trace of its steps, parameterized by the results
that the acquire, submit and present calls report. An out-of-date acquire runs
InitializeSwapChain and then falls through to the submission code, because the
source has no early return there; a thrown runtime error is the error case. -/
def Render (statusAcquire statusSubmit statusPresent : VkResult) :
    Except String (List RenderAction) :=
  let trace := [RenderAction.updateUniformBuffer, RenderAction.acquireNextImage]
  let trace :=
    if statusAcquire = VkResult.errorOutOfDateKHR then
      trace ++ [RenderAction.initializeSwapChain]
    else trace
  if statusAcquire ≠ VkResult.errorOutOfDateKHR ∧ statusAcquire ≠ VkResult.success ∧
      statusAcquire ≠ VkResult.suboptimalKHR then
    Except.error "Failed to acquire swap chain image"
  else
    let trace := trace ++ [RenderAction.queueSubmit]
    if statusSubmit ≠ VkResult.success then
      Except.error "Failed to submit draw command buffer"
    else
      let trace := trace ++ [RenderAction.queuePresent]
      if statusPresent = VkResult.errorOutOfDateKHR then
        Except.ok (trace ++ [RenderAction.initializeSwapChain, RenderAction.deviceWaitIdle])
      else if statusPresent ≠ VkResult.success ∧ statusPresent ≠ VkResult.suboptimalKHR then
        Except.error "Failed to present swap chain image"
      else Except.ok (trace ++ [RenderAction.deviceWaitIdle])

/-- C1: when acquisition reports the surface as out of date, Render triggers
the swapchain rebuild but does not abandon the frame: the resulting trace
still submits the command buffer to the graphics queue and still issues the
present call after the rebuild. -/
theorem render_submits_after_out_of_date :
    Render VkResult.errorOutOfDateKHR VkResult.success VkResult.success =
      Except.ok [RenderAction.updateUniformBuffer, RenderAction.acquireNextImage,
        RenderAction.initializeSwapChain, RenderAction.queueSubmit,
        RenderAction.queuePresent, RenderAction.deviceWaitIdle] ∧
    RenderAction.queueSubmit ∈ [RenderAction.updateUniformBuffer,
      RenderAction.acquireNextImage, RenderAction.initializeSwapChain,
      RenderAction.queueSubmit, RenderAction.queuePresent,
      RenderAction.deviceWaitIdle] ∧
    RenderAction.queuePresent ∈ [RenderAction.updateUniformBuffer,
      RenderAction.acquireNextImage, RenderAction.initializeSwapChain,
      RenderAction.queueSubmit, RenderAction.queuePresent,
      RenderAction.deviceWaitIdle] :=
  ⟨rfl, by decide, by decide⟩

/-- The calls issued by GfxAPIVulkan::InitializeSwapChain,
GfxAPIVulkan::DestroySwapChain and GfxAPIVulkan::Destroy, one constructor per
call site, in source order. -/
inductive Action where
  | deviceWaitIdle
  | freeCommandBuffers
  | destroyFramebuffers
  | destroyPipeline
  | destroyPipelineLayout
  | destroyRenderPass
  | destroyImageViews
  | destroySwapchain
  | createSwapChain
  | createImageViews
  | createRenderPass
  | createDescriptorSetLayout
  | createGraphicsPipeline
  | createFramebuffers
  | createCommandBuffers
  | recordCommandBuffers
  | destroyDescriptorPool
  | destroyDescriptorSetLayout
  | destroyUniformBuffer
  | freeUniformBufferMemory
  | destroySampler
  | destroyTextureImageView
  | destroyTextureImage
  | freeTextureImageMemory
  | destroyVertexBuffer
  | freeVertexBufferMemory
  | destroyIndexBuffer
  | freeIndexBufferMemory
  | destroySemaphores
  | destroyCommandPool
  | destroyDevice
  | destroyValidationErrorCallback
  | destroySurface
  | destroyInstance
  | closeWindow
  | terminateGlfw
deriving DecidableEq, Repr

/-- The call sequence of GfxAPIVulkan::DestroySwapChain: command buffers,
framebuffers, pipeline, pipeline layout, render pass, image views, swapchain.
No call in it touches the descriptor set layout. -/
def DestroySwapChainActions : List Action :=
  [Action.freeCommandBuffers, Action.destroyFramebuffers, Action.destroyPipeline,
   Action.destroyPipelineLayout, Action.destroyRenderPass, Action.destroyImageViews,
   Action.destroySwapchain]

/-- The call sequence of GfxAPIVulkan::InitializeSwapChain, the rebuild entry
point: wait for the device, run the destroy phase, then recreate the chain,
including a fresh descriptor set layout. -/
def InitializeSwapChainActions : List Action :=
  Action.deviceWaitIdle :: DestroySwapChainActions ++
  [Action.createSwapChain, Action.createImageViews, Action.createRenderPass,
   Action.createDescriptorSetLayout, Action.createGraphicsPipeline,
   Action.createFramebuffers, Action.createCommandBuffers, Action.recordCommandBuffers]

/-- The call sequence of GfxAPIVulkan::Destroy, the shutdown path: it contains
the single vkDestroyDescriptorSetLayout call of the whole renderer. -/
def DestroyActions : List Action :=
  Action.deviceWaitIdle :: DestroySwapChainActions ++
  [Action.destroyDescriptorPool, Action.destroyDescriptorSetLayout,
   Action.destroyUniformBuffer, Action.freeUniformBufferMemory, Action.destroySampler,
   Action.destroyTextureImageView, Action.destroyTextureImage,
   Action.freeTextureImageMemory, Action.destroyVertexBuffer,
   Action.freeVertexBufferMemory, Action.destroyIndexBuffer,
   Action.freeIndexBufferMemory, Action.destroySemaphores, Action.destroyCommandPool,
   Action.destroyDevice, Action.destroyValidationErrorCallback, Action.destroySurface,
   Action.destroyInstance, Action.closeWindow, Action.terminateGlfw]

/-- The state of the vkhDescriptorSetLayout member over the life of the
renderer: a counter handing out fresh handles, the handle currently stored in
the member, and the handles destroyed so far, in order. -/
structure LayoutState where
  nextHandle : Nat
  stored : Option Nat
  destroyed : List Nat
deriving DecidableEq, Repr

/-- Effect of one call on the descriptor set layout state:
vkCreateDescriptorSetLayout writes a fresh handle into the member,
vkDestroyDescriptorSetLayout destroys the handle currently stored, every other
call leaves the layout state unchanged. -/
def stepLayout (s : LayoutState) : Action → LayoutState
  | Action.createDescriptorSetLayout =>
    { nextHandle := s.nextHandle + 1, stored := some s.nextHandle,
      destroyed := s.destroyed }
  | Action.destroyDescriptorSetLayout =>
    match s.stored with
    | some h => { s with destroyed := s.destroyed ++ [h] }
    | none => s
  | _ => s

/-- Run a call sequence over the descriptor set layout state. -/
def runLayout (s : LayoutState) (actions : List Action) : LayoutState :=
  actions.foldl stepLayout s

/-- The layout state right after GfxAPIVulkan::Initialize: the startup path
created the first descriptor set layout and destroyed nothing. -/
def initialLayoutState : LayoutState :=
  { nextHandle := 1, stored := some 0, destroyed := [] }

/-- The call sequence of n successive swapchain rebuilds. -/
def rebuildSequence : Nat → List Action
  | 0 => []
  | n + 1 => rebuildSequence n ++ InitializeSwapChainActions

theorem runLayout_append (s : LayoutState) (l1 l2 : List Action) :
    runLayout s (l1 ++ l2) = runLayout (runLayout s l1) l2 := by
  unfold runLayout
  exact List.foldl_append stepLayout s l1 l2

theorem runLayout_initialize (s : LayoutState) :
    runLayout s InitializeSwapChainActions =
      { nextHandle := s.nextHandle + 1, stored := some s.nextHandle,
        destroyed := s.destroyed } :=
  rfl

theorem runLayout_rebuildSequence (n : Nat) :
    runLayout initialLayoutState (rebuildSequence n) =
      { nextHandle := n + 1, stored := some n, destroyed := [] } := by
  induction n with
  | zero => rfl
  | succ n ih =>
    rw [rebuildSequence, runLayout_append, ih, runLayout_initialize]

/-- C10: after any number n of swapchain rebuilds the destroy phase has never
destroyed a descriptor set layout (the destroyed list is empty even though
n + 1 layouts were created, the stored member holding only the newest handle
n), the rebuild sequence indeed contains no layout destruction call, and the
shutdown path then destroys exactly the newest layout once, the shutdown
sequence containing exactly one layout destruction call. -/
theorem descriptorSetLayout_rebuild_leak (n : Nat) :
    runLayout initialLayoutState (rebuildSequence n) =
      { nextHandle := n + 1, stored := some n, destroyed := [] } ∧
    Action.destroyDescriptorSetLayout ∉ InitializeSwapChainActions ∧
    (runLayout (runLayout initialLayoutState (rebuildSequence n))
        DestroyActions).destroyed = [n] ∧
    DestroyActions.count Action.destroyDescriptorSetLayout = 1 := by
  refine ⟨runLayout_rebuildSequence n, by decide, ?_, by decide⟩
  rw [runLayout_rebuildSequence n]
  rfl

end GfxAPIVulkan
